import Mathlib

/-
Verification development for the storm-softlayer libcloud driver
(storm/drivers/softlayer/softlayerDriver.py).

The Python driver is shallowly embedded: provider interactions (the
SoftLayer SDK calls) are modelled as oracle functions collected in an
`Env` record, dictionaries returned by the provider are modelled as
structures whose optional keys are `Option` fields, and the driver's
functions are translated statement by statement into executable Lean
definitions.
-/

namespace StormSoftlayer

/-! ## Python string helpers

`str.startswith` / `str.endswith` / string ordering, modelled over the
character lists of Lean strings so that all of them evaluate inside the
kernel. -/

/-- Python `s.startswith(pre)`. -/
def pyStartswith (s : String) (pre : String) : Bool :=
  pre.data.isPrefixOf s.data

/-- Python `s.endswith(suf)`. -/
def pyEndswith (s : String) (suf : String) : Bool :=
  suf.data.isSuffixOf s.data

/-- Lexicographic (code-point) comparison of character lists, the order
Python uses when comparing strings. -/
def charListLe : List Char → List Char → Bool
  | [], _ => true
  | _ :: _, [] => false
  | a :: as, b :: bs =>
    if a.toNat < b.toNat then true
    else if b.toNat < a.toNat then false
    else charListLe as bs

/-- Python `a <= b` on strings. -/
def pyStrLe (a b : String) : Bool :=
  charListLe a.data b.data

/-- Python `str` of a list of integers, e.g. `"[100, 25]"`. -/
def pyListStr (xs : List Int) : String :=
  "[" ++ String.intercalate ", " (xs.map toString) ++ "]"

/-- Python truthiness of an optional string value (`None` and `""` are
falsy). -/
def pyTruthyStr : Option String → Bool
  | some s => !s.data.isEmpty
  | none => false

/-! ## Data model -/

/-- The driver instance (`SoftLayerNodeDriver`); only its identity
matters to the claims, so it is represented by its credentials. -/
structure Driver where
  username : String
  apiKey : String
deriving DecidableEq, Repr

/-- libcloud `NodeState` values used by the driver. -/
inductive NodeState where
  | RUNNING
  | STOPPED
  | UNKNOWN
  | PENDING
deriving DecidableEq, Repr

/-- `reference["tag"]` of a SoftLayer tag reference. -/
structure Tag where
  name : String
  internal : Int
deriving DecidableEq, Repr

/-- One entry of `instance["tagReferences"]`. -/
structure TagReference where
  tag : Tag
deriving DecidableEq, Repr

/-- `blockDevice["diskImage"]` of a virtual guest block device. -/
structure DiskImage where
  description : String
  capacity : Int
deriving DecidableEq, Repr

/-- One entry of `instance["blockDevices"]` of a virtual guest. -/
structure BlockDevice where
  mountType : String
  diskImage : DiskImage
deriving DecidableEq, Repr

/-- `...["hardwareComponentType"]` of a hardware component model. -/
structure HardwareComponentType where
  keyName : String
deriving DecidableEq, Repr

/-- `...["hardwareGenericComponentModel"]` of a hardware component. -/
structure HardwareGenericComponentModel where
  hardwareComponentType : HardwareComponentType
deriving DecidableEq, Repr

/-- `activeComponent["hardwareComponentModel"]`. -/
structure HardwareComponentModel where
  hardwareGenericComponentModel : HardwareGenericComponentModel
  capacity : Int
deriving DecidableEq, Repr

/-- One entry of `instance["activeComponents"]` of a hardware server. -/
structure ActiveComponent where
  hardwareComponentModel : HardwareComponentModel
deriving DecidableEq, Repr

/-- One entry of `instance["operatingSystem"]["passwords"]`; the
`password` key may be missing. -/
structure PasswordEntry where
  password : Option String
deriving DecidableEq, Repr

/-- `instance["operatingSystem"]`; the `passwords` key may be missing. -/
structure OperatingSystem where
  passwords : Option (List PasswordEntry)
deriving DecidableEq, Repr

/-- `instance["powerState"]`; the `keyName` key may be missing. -/
structure PowerState where
  keyName : Option String
deriving DecidableEq, Repr

/-- A raw hardware instance record as consumed by `_hardware_to_node`
(keys that may be absent are `Option` fields; list-valued keys read with
`inst.get(..., [])` default to `[]`). -/
structure HardwareInstance where
  id : Nat
  fullyQualifiedDomainName : String
  domain : String
  hostname : String
  processorPhysicalCoreAmount : Int
  memoryCapacity : Int
  bareMetalInstanceFlag : Int
  primaryIpAddress : Option String
  primaryBackendIpAddress : Option String
  activeComponents : List ActiveComponent
  tagReferences : List TagReference
  operatingSystem : Option OperatingSystem
deriving DecidableEq, Repr

/-- A raw virtual guest record as consumed by `_virtual_to_node`. -/
structure VirtualInstance where
  id : Nat
  fullyQualifiedDomainName : String
  domain : String
  hostname : String
  maxCpu : Int
  maxMemory : Int
  primaryIpAddress : Option String
  primaryBackendIpAddress : Option String
  blockDevices : List BlockDevice
  tagReferences : List TagReference
  operatingSystem : Option OperatingSystem
  powerState : Option PowerState
deriving DecidableEq, Repr

/-- The `extra` attribute dictionary of a `SoftLayerNodeSize`; every key
the class reads is optional, mirroring `self.extra.get(...)`. -/
structure SizeExtra where
  cpu : Option Int := none
  disks : Option (List Int) := none
  memory : Option Int := none
  bandwidth : Option Int := none
  bandwidthType : Option String := none
  localDiskFlag : Option Bool := none
deriving DecidableEq, Repr

/-- `SoftLayerNodeSize`: its only state is the driver reference and the
`extra` mapping; every other field is a property computed on read. -/
structure SoftLayerNodeSize where
  driver : Option Driver
  extra : SizeExtra
deriving DecidableEq, Repr

/-- Property `bandwidth`: `self.extra.get("bandwidth", 1000)`. -/
def SoftLayerNodeSize.bandwidth (s : SoftLayerNodeSize) : Int :=
  s.extra.bandwidth.getD 1000

/-- Setter of `bandwidth`: the Python setter body is `pass`. -/
def SoftLayerNodeSize.setBandwidth (s : SoftLayerNodeSize) (_ : Int) : SoftLayerNodeSize :=
  s

/-- Method `bandwidthType`. -/
def SoftLayerNodeSize.bandwidthType (s : SoftLayerNodeSize) : String :=
  s.extra.bandwidthType.getD "Public & Private Network Uplinks"

/-- Property `cpu`: `self.extra.get("cpu", 0)`. -/
def SoftLayerNodeSize.cpu (s : SoftLayerNodeSize) : Int :=
  s.extra.cpu.getD 0

/-- Property `diskCapacities`: `self.extra.get("disks", [100])`. -/
def SoftLayerNodeSize.diskCapacities (s : SoftLayerNodeSize) : List Int :=
  s.extra.disks.getD [100]

/-- Property `disk`: `sum(self.diskCapacities)`. -/
def SoftLayerNodeSize.disk (s : SoftLayerNodeSize) : Int :=
  s.diskCapacities.sum

/-- Setter of `disk`: the Python setter body is `pass`. -/
def SoftLayerNodeSize.setDisk (s : SoftLayerNodeSize) (_ : Int) : SoftLayerNodeSize :=
  s

/-- Property `diskType`: `localDiskFlag` when present, otherwise local
iff there are at most two disk capacities. -/
def SoftLayerNodeSize.diskType (s : SoftLayerNodeSize) : String :=
  let localFlag : Bool :=
    match s.extra.localDiskFlag with
    | some b => b
    | none => decide (s.diskCapacities.length ≤ 2)
  if localFlag then "LOCAL" else "SAN"

/-- Property `ram`: `self.extra.get("memory", 0)`. -/
def SoftLayerNodeSize.ram (s : SoftLayerNodeSize) : Int :=
  s.extra.memory.getD 0

/-- Setter of `ram`: the Python setter body is `pass`. -/
def SoftLayerNodeSize.setRam (s : SoftLayerNodeSize) (_ : Int) : SoftLayerNodeSize :=
  s

/-- Property `id`: `"{cpu}-cpu-{ram}-ram-{diskCapacities}-disks"`. -/
def SoftLayerNodeSize.id (s : SoftLayerNodeSize) : String :=
  toString s.cpu ++ "-cpu-" ++ toString s.ram ++ "-ram-" ++
    pyListStr s.diskCapacities ++ "-disks"

/-- Setter of `id`: the Python setter body is `pass`. -/
def SoftLayerNodeSize.setId (s : SoftLayerNodeSize) (_ : String) : SoftLayerNodeSize :=
  s

/-- Property `name`:
`"{cpu}xCPU, {ram}GB, {disks} {diskType} disks ({diskCapacities}), {bandwidth}Mbps"`
where `ram` is `self.ram/1024` (Python 2 floor division). -/
def SoftLayerNodeSize.name (s : SoftLayerNodeSize) : String :=
  toString s.cpu ++ "xCPU, " ++ toString (Int.fdiv s.ram 1024) ++ "GB, " ++
    toString s.diskCapacities.length ++ " " ++ s.diskType ++ " disks (" ++
    String.intercalate "," (s.diskCapacities.map toString) ++ "), " ++
    toString s.bandwidth ++ "Mbps"

/-- Setter of `name`: the Python setter body is `pass`. -/
def SoftLayerNodeSize.setName (s : SoftLayerNodeSize) (_ : String) : SoftLayerNodeSize :=
  s

/-- The `extra` dictionary built by the node translators. -/
structure NodeExtra where
  domain : String
  hostname : String
  tags : List String
  nodeType : String
  password : String
deriving DecidableEq, Repr

/-- A libcloud `Node` as constructed by this driver. -/
structure Node where
  id : Nat
  name : String
  state : NodeState
  publicIps : List String
  privateIps : List String
  driver : Driver
  size : SoftLayerNodeSize
  extra : NodeExtra
deriving DecidableEq, Repr

/-! ## Node translators -/

/-- Extraction of
`instance["operatingSystem"]["passwords"][0]["password"]` guarded by the
translators' bare `try`/`except` that falls back to `"unknown"` on any
missing key or empty list. -/
def extractPassword (os : Option OperatingSystem) : String :=
  match os with
  | some o =>
    match o.passwords with
    | some (entry :: _) =>
      match entry.password with
      | some pw => pw
      | none => "unknown"
    | _ => "unknown"
  | none => "unknown"

/-- `SoftLayerNodeDriver._hardware_to_node`. -/
def hardware_to_node (driver : Driver) (inst : HardwareInstance) : Node :=
  let publicIps := match inst.primaryIpAddress with
    | some ip => [ip]
    | none => []
  let privateIps := match inst.primaryBackendIpAddress with
    | some ip => [ip]
    | none => []
  let disks :=
    (inst.activeComponents.filter (fun activeComponent =>
      activeComponent.hardwareComponentModel.hardwareGenericComponentModel.hardwareComponentType.keyName
        == "HARD_DRIVE")).map
      (fun activeComponent => activeComponent.hardwareComponentModel.capacity)
  let sizeExtra : SizeExtra :=
    { cpu := some inst.processorPhysicalCoreAmount
      disks := some disks
      memory := some (1024 * inst.memoryCapacity) }
  let size : SoftLayerNodeSize := { driver := some driver, extra := sizeExtra }
  let extra : NodeExtra :=
    { domain := inst.domain
      hostname := inst.hostname
      tags := (inst.tagReferences.filter
          (fun reference => reference.tag.internal == 0)).map
          (fun reference => reference.tag.name)
      nodeType := if inst.bareMetalInstanceFlag == 1 then "bare_metal" else "virtual_server"
      password := extractPassword inst.operatingSystem }
  { id := inst.id
    name := inst.fullyQualifiedDomainName
    state := NodeState.RUNNING
    publicIps := publicIps
    privateIps := privateIps
    driver := driver
    size := size
    extra := extra }

/-- `SoftLayerNodeDriver.NODE_STATE_MAP`. -/
def NODE_STATE_MAP (keyName : String) : Option NodeState :=
  if keyName = "RUNNING" then some NodeState.RUNNING
  else if keyName = "HALTED" then some NodeState.STOPPED
  else if keyName = "PAUSED" then some NodeState.UNKNOWN
  else if keyName = "INITIATING" then some NodeState.PENDING
  else none

/-- `SoftLayerNodeDriver._virtual_to_node`. -/
def virtual_to_node (driver : Driver) (inst : VirtualInstance) : Node :=
  let publicIps := match inst.primaryIpAddress with
    | some ip => [ip]
    | none => []
  let privateIps := match inst.primaryBackendIpAddress with
    | some ip => [ip]
    | none => []
  let disks :=
    (inst.blockDevices.filter (fun blockDevice =>
      blockDevice.mountType == "Disk" &&
        !(pyEndswith blockDevice.diskImage.description "-SWAP"))).map
      (fun blockDevice => blockDevice.diskImage.capacity)
  let sizeExtra : SizeExtra :=
    { cpu := some inst.maxCpu
      disks := some disks
      memory := some inst.maxMemory }
  let size : SoftLayerNodeSize := { driver := some driver, extra := sizeExtra }
  let extra : NodeExtra :=
    { domain := inst.domain
      hostname := inst.hostname
      tags := (inst.tagReferences.filter
          (fun reference => reference.tag.internal == 0)).map
          (fun reference => reference.tag.name)
      nodeType := "virtual_server"
      password := extractPassword inst.operatingSystem }
  let state := match inst.powerState with
    | some powerState =>
      match powerState.keyName with
      | some keyName => (NODE_STATE_MAP keyName).getD NodeState.UNKNOWN
      | none => NodeState.UNKNOWN
    | none => NodeState.UNKNOWN
  { id := inst.id
    name := inst.fullyQualifiedDomainName
    state := state
    publicIps := publicIps
    privateIps := privateIps
    driver := driver
    size := size
    extra := extra }

/-- Spec-side characterization for the password fallback: the first
password of the record when one is present. Written from the spec
sentence, to be compared with `extractPassword` from the source. -/
def specFirstPassword (os : Option OperatingSystem) : Option String :=
  (os.bind OperatingSystem.passwords).bind (fun l => l.head?.bind PasswordEntry.password)

/-! ## VLANs -/

/-- One entry of `vlan["subnets"]`. -/
structure Subnet where
  networkIdentifier : String
deriving DecidableEq, Repr

/-- A VLAN record returned by `networkManager.list_vlans`; the code
reads `vlan.get("virtualGuestCount", 0)` so the count defaults to 0. -/
structure Vlan where
  id : Nat
  subnets : List Subnet
  virtualGuestCount : Nat
deriving DecidableEq, Repr

/-- The classification applied to each VLAN inside `ex_get_vlans`: a
VLAN is put on the private list when all of its subnet network
identifiers start with `"10."` (vacuously when it has no subnets). -/
def vlanIsPrivate (vlan : Vlan) : Bool :=
  (vlan.subnets.map Subnet.networkIdentifier).all
    (fun identifier => pyStartswith identifier "10.")

/-- `SoftLayerNodeDriver.ex_get_vlans`. The first argument is the VLAN
list returned by the provider for the requested datacenter; the second
component of the result counts the `list_vlans` provider queries the
call issues (the early return happens before the network manager is
created, so it issues none). -/
def ex_get_vlans (providerVlans : List Vlan) (includePrivate : Bool) (includePublic : Bool) :
    List Vlan × Nat :=
  if !includePrivate && !includePublic then ([], 0)
  else
    let vlans := providerVlans
    let privateVlans := vlans.filter vlanIsPrivate
    let publicVlans := vlans.filter (fun vlan => !vlanIsPrivate vlan)
    if includePrivate && !includePublic then (privateVlans, 1)
    else if includePublic && !includePrivate then (publicVlans, 1)
    else (vlans, 1)

/-! ## Clusters -/

/-- `SoftLayerCluster`: name, driver and the name-to-node mapping (the
Python `dict` is modelled as an association list in insertion order). -/
structure SoftLayerCluster where
  name : String
  driver : Driver
  nodes : List (String × Node)
deriving DecidableEq, Repr

/-- `SoftLayerCluster.destroy`. `destroy_node` is the driver call, an
oracle deciding whether destroying a node succeeds. The result pair is
the trace of nodes on which `destroy_node` was invoked (in iteration
order) together with `remainingNodes`, the names collected for members
whose destroy call returned false. -/
def SoftLayerCluster.destroyRun (destroy_node : Node → Bool) (c : SoftLayerCluster) :
    List Node × List String :=
  c.nodes.foldl
    (fun acc p =>
      (acc.1 ++ [p.2], if destroy_node p.2 then acc.2 else acc.2 ++ [p.1]))
    ([], [])

/-- The success report of `SoftLayerCluster.destroy`: the info-level
branch is taken exactly when `remainingNodes` stayed empty. -/
def SoftLayerCluster.destroySucceeded (destroy_node : Node → Bool) (c : SoftLayerCluster) : Bool :=
  (c.destroyRun destroy_node).2.isEmpty

/-! ## Node listing -/

/-- Comparison used by `sorted(nodes, key=lambda node: node.name)`. -/
def nodeNameLe (a b : Node) : Bool :=
  pyStrLe a.name b.name

/-- `sorted(nodes, key=lambda node: node.name)`. -/
def sortedByName (nodes : List Node) : List Node :=
  nodes.mergeSort nodeNameLe

/-! ## Provisioning -/

/-- The creation configuration dictionary (`createOptions` /
`nodeConfig`) passed to `ex_create_nodes`. -/
structure CreateOptions where
  cpus : Int
  datacenter : String
  domain : String
  hostname : String
  hourly : Bool
  memory : Int
  nic_speed : Int
  os_code : Option String := none
  image_id : Option String := none
  disks : List Int := []
  local_disk : Bool := true
  public_vlan : Option Nat := none
  private_vlan : Option Nat := none
  tags : Option String := none
deriving DecidableEq, Repr

/-- The per-instance record returned by `vs.guest.createObjects` (the
fields `ex_create_nodes` reads from it). -/
structure InstanceInfo where
  id : Nat
  fullyQualifiedDomainName : String
deriving DecidableEq, Repr

/-- The relevant fields of the instance record fetched by
`vs.get_instance` inside the wait loop. -/
structure PollResult where
  fullyQualifiedDomainName : String
  provisionDate : Option String
  activeTransactionId : Option Nat
deriving DecidableEq, Repr

/-- The provider (SoftLayer SDK) interactions of the driver, modelled as
oracles: `createObject` is one entry of `vs.guest.createObjects`,
`getInstance` is the maskless `vs.get_instance` poll during wait round
`r`, `fetchInstance` is the final masked `vs.get_instance`,
`listHardware`/`listVirtual` are the tag-filtered listing calls and
`listVlans` is `networkManager.list_vlans` for a datacenter. -/
structure Env where
  createObject : CreateOptions → InstanceInfo
  getInstance : Nat → Nat → PollResult
  fetchInstance : Nat → VirtualInstance
  listHardware : Option (List String) → List HardwareInstance
  listVirtual : Option (List String) → List VirtualInstance
  listVlans : Option String → List Vlan

/-- The readiness check of the wait loop:
`all([instance.get('provisionDate'), not activeTransactionId])` with
Python truthiness (an empty provision date is falsy, a transaction id of
0 is falsy). -/
def instanceReady (p : PollResult) : Bool :=
  pyTruthyStr p.provisionDate &&
    (match p.activeTransactionId with
     | none => true
     | some i => i == 0)

/-- `readyInstances.add(...)` on the Python set, modelled as an ordered
duplicate-free list. -/
def readyInsert (ready : List String) (f : String) : List String :=
  if f ∈ ready then ready else ready ++ [f]

/-- One pass of the inner `for instanceInfo in instanceInfos` loop of
`ex_create_nodes` during wait round `round`: instances whose fully
qualified domain name is already marked ready are skipped, the others
are polled and marked when provisioned. (The `transactions` dictionary
of the source only feeds log messages and is omitted.) -/
def pollRound (env : Env) (round : Nat) : List InstanceInfo → List String → List String
  | [], ready => ready
  | info :: rest, ready =>
    if info.fullyQualifiedDomainName ∈ ready then
      pollRound env round rest ready
    else if instanceReady (env.getInstance info.id round) then
      pollRound env round rest
        (readyInsert ready (env.getInstance info.id round).fullyQualifiedDomainName)
    else
      pollRound env round rest ready

/-- The `while timeout > 0` wait loop of `ex_create_nodes`: each
iteration performs one poll round, breaks when every instance is marked
ready and otherwise decrements the budget and sleeps one second. -/
def waitLoop (env : Env) (infos : List InstanceInfo) : Nat → Nat → List String → List String
  | 0, _, ready => ready
  | t + 1, round, ready =>
    let ready2 := pollRound env round infos ready
    if ready2.length = infos.length then ready2
    else waitLoop env infos t (round + 1) ready2

/-- `config.pop("tags", None)`: the tags entry is removed from each
configuration before it is submitted. -/
def stripTags (c : CreateOptions) : CreateOptions :=
  { c with tags := none }

/-- The instance records returned by `vs.guest.createObjects(objects)`
for a batch of configurations. -/
def submittedInfos (env : Env) (configs : List CreateOptions) : List InstanceInfo :=
  configs.map (fun c => env.createObject (stripTags c))

/-- `SoftLayerNodeDriver.ex_create_nodes`: submit the batch, wait until
all instances are ready or the budget is exhausted, and return the
translated nodes — `nodes` is still the empty list when the final
readiness count check fails. -/
def ex_create_nodes (env : Env) (driver : Driver) (configs : List CreateOptions)
    (timeout : Nat) : List Node :=
  let instanceInfos := submittedInfos env configs
  let readyInstances := waitLoop env instanceInfos timeout 0 []
  if readyInstances.length ≠ instanceInfos.length then []
  else instanceInfos.map (fun info => virtual_to_node driver (env.fetchInstance info.id))

/-! ## create_node / ex_create_cluster -/

/-- The image argument: either a `SoftLayerOperatingSystemImage` (whose
id is an operating-system code) or a plain `NodeImage` (whose id is an
image template identifier). -/
inductive ImageT where
  | osImage (code : String) (imageName : String)
  | templateImage (imageId : String) (imageName : String)
deriving DecidableEq, Repr

/-- `image.id`. -/
def ImageT.id : ImageT → String
  | .osImage code _ => code
  | .templateImage imageId _ => imageId

/-- The location argument (`SoftLayerNodeLocation`); its `id` is the
datacenter name. -/
structure LocationT where
  id : String
  name : String
  country : String
deriving DecidableEq, Repr

/-- The keyword arguments of `create_node`; a `none` field models an
absent keyword. -/
structure CreateNodeKwargs where
  image : Option ImageT := none
  location : Option LocationT := none
  name : Option String := none
  size : Option SoftLayerNodeSize := none
deriving Repr

/-- The keyword arguments of `ex_create_cluster`. -/
structure CreateClusterKwargs where
  cluster : Option String := none
  image : Option ImageT := none
  location : Option LocationT := none
  names : Option (List String) := none
  size : Option SoftLayerNodeSize := none
deriving Repr

/-- The `createOptions` dictionary shared by `create_node` and
`ex_create_cluster`, including the image branch on
`isinstance(image, SoftLayerOperatingSystemImage)`. `hostname` is only
set by `create_node`; `ex_create_cluster` sets it per node later. -/
def buildCreateOptions (image : ImageT) (location : LocationT) (hostname : String)
    (size : SoftLayerNodeSize) : CreateOptions :=
  let base : CreateOptions :=
    { cpus := size.cpu
      datacenter := location.id
      domain := "sl-cloud.com"
      hostname := hostname
      hourly := true
      memory := size.ram
      nic_speed := size.bandwidth }
  match image with
  | .osImage code _ =>
    { base with
        os_code := some code
        disks := size.diskCapacities
        local_disk := decide (size.diskCapacities.length ≤ 2) }
  | .templateImage imageId _ =>
    { base with
        image_id := some imageId
        disks := size.diskCapacities
        local_disk := decide (size.diskCapacities.length ≤ 2) }

/-- The body of `create_node` after argument validation (it never raises
a `ValueError`; it returns the first created node or `None` on
timeout). -/
def create_node_body (env : Env) (driver : Driver) (timeout : Nat) (image : ImageT)
    (location : LocationT) (name : String) (size : SoftLayerNodeSize) : Option Node :=
  let createOptions := buildCreateOptions image location name size
  let nodes := ex_create_nodes env driver [createOptions] timeout
  match nodes with
  | node :: _ => some node
  | [] => none

/-- `SoftLayerNodeDriver.create_node`: the four required keyword
arguments are validated in source order before anything else happens;
a missing one raises `ValueError` immediately. -/
def create_node (env : Env) (driver : Driver) (timeout : Nat) (kwargs : CreateNodeKwargs) :
    Except String (Option Node) :=
  match kwargs.image with
  | none => Except.error "'image' needs to be specified"
  | some image =>
    match kwargs.location with
    | none => Except.error "'location' needs to be specified"
    | some location =>
      match kwargs.name with
      | none => Except.error "'name' needs to be specified"
      | some name =>
        match kwargs.size with
        | none => Except.error "'size' needs to be specified"
        | some size =>
          Except.ok (create_node_body env driver timeout image location name size)

/-- `SoftLayerNodeDriver.ex_get_hardware_nodes` (the keyword filters
other than `tags` are absorbed by the `listHardware` oracle). -/
def ex_get_hardware_nodes (env : Env) (driver : Driver) (tagsFilter : Option (List String)) :
    List Node :=
  sortedByName ((env.listHardware tagsFilter).map (hardware_to_node driver))

/-- `SoftLayerNodeDriver.ex_get_virtual_nodes`. -/
def ex_get_virtual_nodes (env : Env) (driver : Driver) (tagsFilter : Option (List String)) :
    List Node :=
  sortedByName ((env.listVirtual tagsFilter).map (virtual_to_node driver))

/-- `SoftLayerNodeDriver.list_nodes`. -/
def list_nodes (env : Env) (driver : Driver) : List Node :=
  sortedByName (ex_get_hardware_nodes env driver none ++ ex_get_virtual_nodes env driver none)

/-- `SoftLayerNodeDriver.ex_get_cluster_by_name` (the Python dict
comprehension keyed by node name is kept as an association list). -/
def ex_get_cluster_by_name (env : Env) (driver : Driver) (name : String) :
    Option SoftLayerCluster :=
  let nameTag := "storm.cluster.name:" ++ name
  let nodes := ex_get_hardware_nodes env driver (some [nameTag]) ++
    ex_get_virtual_nodes env driver (some [nameTag])
  if nodes.isEmpty then none
  else some { name := name, driver := driver, nodes := nodes.map (fun n => (n.name, n)) }

/-- The body of `ex_create_cluster` after argument validation (it never
raises a `ValueError`; it returns `None` when requested nodes already
exist or when creation times out). -/
def ex_create_cluster_body (env : Env) (driver : Driver) (timeout : Nat) (cluster : String)
    (image : ImageT) (location : LocationT) (names : List String)
    (size : SoftLayerNodeSize) : Option SoftLayerCluster :=
  let existing := ex_get_cluster_by_name env driver cluster
  let existingNodes :=
    match existing with
    | some softlayerCluster =>
      names.filter (fun n => (softlayerCluster.nodes.map Prod.fst).contains n)
    | none => []
  if (match existing with
      | some _ => !existingNodes.isEmpty
      | none => false) then
    none
  else
    let createOptions := buildCreateOptions image location "" size
    let publicVlans := (ex_get_vlans (env.listVlans (some location.id)) false true).1
    let createOptions :=
      match (publicVlans.mergeSort
          (fun a b => decide (a.virtualGuestCount ≤ b.virtualGuestCount))).getLast? with
      | some largestPublicVlan => { createOptions with public_vlan := some largestPublicVlan.id }
      | none => createOptions
    let privateVlans := (ex_get_vlans (env.listVlans (some location.id)) true false).1
    let createOptions :=
      match (privateVlans.mergeSort
          (fun a b => decide (a.virtualGuestCount ≤ b.virtualGuestCount))).getLast? with
      | some largestPrivateVlan => { createOptions with private_vlan := some largestPrivateVlan.id }
      | none => createOptions
    let configurations := names.map (fun n =>
      { createOptions with
          hostname := cluster ++ "-" ++ n
          tags := some ("storm.cluster,storm.cluster.name:" ++ cluster) })
    let nodes := ex_create_nodes env driver configurations timeout
    match nodes with
    | [] => none
    | _ =>
      some { name := cluster, driver := driver, nodes := nodes.map (fun n => (n.name, n)) }

/-- `SoftLayerNodeDriver.ex_create_cluster`: the five required keyword
arguments are validated in source order before any provider call. -/
def ex_create_cluster (env : Env) (driver : Driver) (timeout : Nat)
    (kwargs : CreateClusterKwargs) : Except String (Option SoftLayerCluster) :=
  match kwargs.cluster with
  | none => Except.error "'cluster' needs to be specified"
  | some cluster =>
    match kwargs.image with
    | none => Except.error "'image' needs to be specified"
    | some image =>
      match kwargs.location with
      | none => Except.error "'location' needs to be specified"
      | some location =>
        match kwargs.names with
        | none => Except.error "'names' needs to be specified"
        | some names =>
          match kwargs.size with
          | none => Except.error "'size' needs to be specified"
          | some size =>
            Except.ok (ex_create_cluster_body env driver timeout cluster image location names size)

/-- The error component of a driver call result (`some` exactly when a
`ValueError` was raised). -/
def errorOf {α : Type} : Except String α → Option String
  | Except.error e => some e
  | Except.ok _ => none

/-! ## Concrete fixtures

Concrete records and a concrete environment used to evaluate the driver
operations on explicit inputs. -/

/-- A concrete driver instance. -/
def driver0 : Driver :=
  { username := "someuser", apiKey := "somekey" }

/-- A virtual guest record for the instance with id 1. -/
def vInstAlpha : VirtualInstance :=
  { id := 1
    fullyQualifiedDomainName := "alpha.sl-cloud.com"
    domain := "sl-cloud.com"
    hostname := "alpha"
    maxCpu := 2
    maxMemory := 2048
    primaryIpAddress := some "169.48.0.10"
    primaryBackendIpAddress := some "10.0.0.10"
    blockDevices := []
    tagReferences := []
    operatingSystem := some { passwords := some [{ password := some "topsecret" }] }
    powerState := some { keyName := some "RUNNING" } }

/-- A virtual guest record for the instance with id 2. -/
def vInstBeta : VirtualInstance :=
  { id := 2
    fullyQualifiedDomainName := "beta.sl-cloud.com"
    domain := "sl-cloud.com"
    hostname := "beta"
    maxCpu := 2
    maxMemory := 2048
    primaryIpAddress := none
    primaryBackendIpAddress := none
    blockDevices := []
    tagReferences := []
    operatingSystem := none
    powerState := none }

/-- A virtual guest record whose operating-system record carries an
empty-string password. -/
def vInstEmptyPassword : VirtualInstance :=
  { id := 3
    fullyQualifiedDomainName := "gamma.sl-cloud.com"
    domain := "sl-cloud.com"
    hostname := "gamma"
    maxCpu := 1
    maxMemory := 1024
    primaryIpAddress := none
    primaryBackendIpAddress := none
    blockDevices := []
    tagReferences := []
    operatingSystem := some { passwords := some [{ password := some "" }] }
    powerState := none }

/-- A creation configuration for a node named alpha. -/
def cfgAlpha : CreateOptions :=
  { cpus := 2
    datacenter := "dal09"
    domain := "sl-cloud.com"
    hostname := "alpha"
    hourly := true
    memory := 2048
    nic_speed := 1000 }

/-- A creation configuration for a node named beta. -/
def cfgBeta : CreateOptions :=
  { cpus := 2
    datacenter := "dal09"
    domain := "sl-cloud.com"
    hostname := "beta"
    hourly := true
    memory := 2048
    nic_speed := 1000 }

/-- An environment in which the alpha configuration creates instance 1,
which is provisioned from the first poll on, and the beta configuration
creates instance 2, which never finishes provisioning (it always has an
active transaction and no provision date). -/
def envTwo : Env :=
  { createObject := fun c =>
      if c.hostname = "alpha" then { id := 1, fullyQualifiedDomainName := "alpha.sl-cloud.com" }
      else { id := 2, fullyQualifiedDomainName := "beta.sl-cloud.com" }
    getInstance := fun i _ =>
      if i = 1 then
        { fullyQualifiedDomainName := "alpha.sl-cloud.com"
          provisionDate := some "2016-05-04 10:00:00"
          activeTransactionId := none }
      else
        { fullyQualifiedDomainName := "beta.sl-cloud.com"
          provisionDate := none
          activeTransactionId := some 42 }
    fetchInstance := fun i => if i = 1 then vInstAlpha else vInstBeta
    listHardware := fun _ => []
    listVirtual := fun _ => []
    listVlans := fun _ => [] }

/-- A VLAN with one private-range subnet and one public subnet: not all
of its subnets start with `"10."`, so `ex_get_vlans` classifies it as
public even though one subnet identifier does start with `"10."`. -/
def vlanMixed : Vlan :=
  { id := 5
    subnets := [{ networkIdentifier := "10.32.0.0" }, { networkIdentifier := "169.48.0.0" }]
    virtualGuestCount := 3 }

/-! ## Helper lemmas -/

/-- The translators' password extraction agrees with the spec-side
first-password characterization. -/
theorem extractPassword_eq_spec (os : Option OperatingSystem) :
    extractPassword os = (specFirstPassword os).getD "unknown" := by
  rcases os with _ | ⟨pws⟩
  · rfl
  · rcases pws with _ | ⟨_ | ⟨⟨pw⟩, rest⟩⟩
    · rfl
    · rfl
    · rcases pw with _ | p <;> rfl

/-- Characterization of the destroy fold of `SoftLayerCluster.destroy`
for an arbitrary accumulator. -/
theorem destroyRun_foldl (d : Node → Bool) (l : List (String × Node))
    (acc : List Node × List String) :
    l.foldl
      (fun acc p => (acc.1 ++ [p.2], if d p.2 then acc.2 else acc.2 ++ [p.1])) acc =
      (acc.1 ++ l.map Prod.snd, acc.2 ++ (l.filter (fun p => !(d p.2))).map Prod.fst) := by
  induction l generalizing acc with
  | nil => simp
  | cons p rest ih =>
    simp only [List.foldl_cons, List.map_cons, List.filter_cons]
    by_cases h : d p.2
    · simp [h, ih]
    · simp [h, ih]

theorem charListLe_total : ∀ a b : List Char, (charListLe a b || charListLe b a) = true := by
  intro a
  induction a with
  | nil => intro b; simp [charListLe]
  | cons x xs ih =>
    intro b
    cases b with
    | nil => simp [charListLe]
    | cons y ys =>
      simp only [charListLe]
      rcases Nat.lt_trichotomy x.toNat y.toNat with h | h | h
      · simp [h]
      · simp [h, Nat.lt_irrefl]
        simpa using ih ys
      · simp [h, Nat.lt_asymm h]

theorem charListLe_trans :
    ∀ a b c : List Char, charListLe a b = true → charListLe b c = true →
      charListLe a c = true := by
  intro a
  induction a with
  | nil => intro b c _ _; rfl
  | cons x xs ih =>
    intro b c hab hbc
    cases b with
    | nil => simp [charListLe] at hab
    | cons y ys =>
      cases c with
      | nil => simp [charListLe] at hbc
      | cons z zs =>
        simp only [charListLe] at hab hbc ⊢
        rcases Nat.lt_trichotomy x.toNat y.toNat with hxy | hxy | hxy
        · rcases Nat.lt_trichotomy y.toNat z.toNat with hyz | hyz | hyz
          · simp [show x.toNat < z.toNat by omega]
          · simp [show x.toNat < z.toNat by omega]
          · simp [hyz, Nat.lt_asymm hyz] at hbc
        · rcases Nat.lt_trichotomy y.toNat z.toNat with hyz | hyz | hyz
          · simp [show x.toNat < z.toNat by omega]
          · have hxz : x.toNat = z.toNat := by omega
            simp [hxy, Nat.lt_irrefl] at hab
            simp [hyz, Nat.lt_irrefl] at hbc
            simp [hxz, Nat.lt_irrefl]
            exact ih ys zs hab hbc
          · simp [hyz, Nat.lt_asymm hyz] at hbc
        · simp [hxy, Nat.lt_asymm hxy] at hab

theorem nodeNameLe_trans (a b c : Node) (hab : nodeNameLe a b = true)
    (hbc : nodeNameLe b c = true) : nodeNameLe a c = true :=
  charListLe_trans a.name.data b.name.data c.name.data hab hbc

theorem nodeNameLe_total (a b : Node) : (nodeNameLe a b || nodeNameLe b a) = true :=
  charListLe_total a.name.data b.name.data

theorem mem_readyInsert_of_mem {ready : List String} {a : String} (f : String)
    (h : a ∈ ready) : a ∈ readyInsert ready f := by
  rw [readyInsert]
  split
  · exact h
  · exact List.mem_append_left _ h

theorem self_mem_readyInsert (ready : List String) (f : String) : f ∈ readyInsert ready f := by
  rw [readyInsert]
  split
  · assumption
  · simp

theorem readyInsert_nodup {ready : List String} (h : ready.Nodup) (f : String) :
    (readyInsert ready f).Nodup := by
  rw [readyInsert]
  split
  · exact h
  · simp [List.nodup_append, h]
    assumption

theorem mem_of_mem_readyInsert {ready : List String} {f a : String}
    (h : a ∈ readyInsert ready f) : a ∈ ready ∨ a = f := by
  rw [readyInsert] at h
  split at h
  · exact Or.inl h
  · simpa using h

theorem not_mem_readyInsert {ready : List String} {f a : String} (hne : a ≠ f)
    (h : a ∉ ready) : a ∉ readyInsert ready f := by
  intro hmem
  rcases mem_of_mem_readyInsert hmem with h1 | h1
  · exact h h1
  · exact hne h1

theorem mem_pollRound_of_mem (env : Env) (round : Nat) :
    ∀ (infos : List InstanceInfo) (ready : List String) {a : String},
      a ∈ ready → a ∈ pollRound env round infos ready := by
  intro infos
  induction infos with
  | nil => intro ready a h; exact h
  | cons info rest ih =>
    intro ready a h
    rw [pollRound]
    split
    · exact ih ready h
    · split
      · exact ih _ (mem_readyInsert_of_mem _ h)
      · exact ih ready h

theorem pollRound_mem_source (env : Env) (round : Nat) :
    ∀ (infos : List InstanceInfo) (ready : List String) {a : String},
      a ∈ pollRound env round infos ready →
      a ∈ ready ∨ ∃ info ∈ infos, a = (env.getInstance info.id round).fullyQualifiedDomainName := by
  intro infos
  induction infos with
  | nil => intro ready a h; exact Or.inl h
  | cons info rest ih =>
    intro ready a h
    rw [pollRound] at h
    split at h
    · rcases ih ready h with h1 | ⟨info2, h2, h3⟩
      · exact Or.inl h1
      · exact Or.inr ⟨info2, List.mem_cons_of_mem _ h2, h3⟩
    · split at h
      · rcases ih _ h with h1 | ⟨info2, h2, h3⟩
        · rcases mem_of_mem_readyInsert h1 with h4 | h4
          · exact Or.inl h4
          · exact Or.inr ⟨info, List.mem_cons_self _ _, h4⟩
        · exact Or.inr ⟨info2, List.mem_cons_of_mem _ h2, h3⟩
      · rcases ih ready h with h1 | ⟨info2, h2, h3⟩
        · exact Or.inl h1
        · exact Or.inr ⟨info2, List.mem_cons_of_mem _ h2, h3⟩

theorem pollRound_nodup (env : Env) (round : Nat) :
    ∀ (infos : List InstanceInfo) (ready : List String),
      ready.Nodup → (pollRound env round infos ready).Nodup := by
  intro infos
  induction infos with
  | nil => intro ready h; exact h
  | cons info rest ih =>
    intro ready h
    rw [pollRound]
    split
    · exact ih ready h
    · split
      · exact ih _ (readyInsert_nodup h _)
      · exact ih ready h

theorem pollRound_marks (env : Env) (round : Nat) :
    ∀ (infos : List InstanceInfo) (ready : List String) {info : InstanceInfo},
      info ∈ infos →
      (env.getInstance info.id round).fullyQualifiedDomainName =
        info.fullyQualifiedDomainName →
      instanceReady (env.getInstance info.id round) = true →
      info.fullyQualifiedDomainName ∈ pollRound env round infos ready := by
  intro infos
  induction infos with
  | nil => intro ready info h; simp at h
  | cons info2 rest ih =>
    intro ready info hmem hcoh hready
    rcases List.mem_cons.1 hmem with heq | hrest
    · subst heq
      rw [pollRound]
      split
      · exact mem_pollRound_of_mem env round rest ready (by assumption)
      · apply mem_pollRound_of_mem
        rw [hcoh]
        exact self_mem_readyInsert ready _
    · rw [pollRound]
      split
      · exact ih ready hrest hcoh hready
      · split
        · exact ih _ hrest hcoh hready
        · exact ih ready hrest hcoh hready

theorem pollRound_not_marked (env : Env) (round : Nat) :
    ∀ (infos : List InstanceInfo) (ready : List String) {f : String},
      (∀ info ∈ infos, instanceReady (env.getInstance info.id round) = true →
        (env.getInstance info.id round).fullyQualifiedDomainName ≠ f) →
      f ∉ ready → f ∉ pollRound env round infos ready := by
  intro infos
  induction infos with
  | nil => intro ready f _ h; exact h
  | cons info rest ih =>
    intro ready f hsafe h
    rw [pollRound]
    split
    · exact ih ready (fun i hi => hsafe i (List.mem_cons_of_mem _ hi)) h
    · split
      · rename_i hready
        refine ih _ (fun i hi => hsafe i (List.mem_cons_of_mem _ hi)) ?_
        refine not_mem_readyInsert ?_ h
        intro heq
        exact hsafe info (List.mem_cons_self _ _) hready heq.symm
      · exact ih ready (fun i hi => hsafe i (List.mem_cons_of_mem _ hi)) h

theorem waitLoop_invariant (env : Env) (infos : List InstanceInfo)
    (hcoh : ∀ info ∈ infos, ∀ r,
      (env.getInstance info.id r).fullyQualifiedDomainName = info.fullyQualifiedDomainName) :
    ∀ (t round : Nat) (ready : List String), ready.Nodup →
      (∀ a ∈ ready, a ∈ infos.map InstanceInfo.fullyQualifiedDomainName) →
      (waitLoop env infos t round ready).Nodup ∧
        (∀ a ∈ waitLoop env infos t round ready,
          a ∈ infos.map InstanceInfo.fullyQualifiedDomainName) := by
  intro t
  induction t with
  | zero => intro round ready h1 h2; exact ⟨h1, h2⟩
  | succ t ih =>
    intro round ready h1 h2
    have h1' : (pollRound env round infos ready).Nodup := pollRound_nodup env round infos ready h1
    have h2' : ∀ a ∈ pollRound env round infos ready,
        a ∈ infos.map InstanceInfo.fullyQualifiedDomainName := by
      intro a ha
      rcases pollRound_mem_source env round infos ready ha with h3 | ⟨info, h3, h4⟩
      · exact h2 a h3
      · rw [hcoh info h3 round] at h4
        exact h4 ▸ List.mem_map_of_mem _ h3
    rw [waitLoop]
    split
    · exact ⟨h1', h2'⟩
    · exact ih (round + 1) _ h1' h2'

theorem waitLoop_all_ready (env : Env) (infos : List InstanceInfo)
    (hcoh : ∀ info ∈ infos, ∀ r,
      (env.getInstance info.id r).fullyQualifiedDomainName = info.fullyQualifiedDomainName)
    (hnodup : (infos.map InstanceInfo.fullyQualifiedDomainName).Nodup) :
    ∀ (t round : Nat) (ready : List String), ready.Nodup →
      (∀ a ∈ ready, a ∈ infos.map InstanceInfo.fullyQualifiedDomainName) →
      (∀ info ∈ infos, info.fullyQualifiedDomainName ∉ ready →
        ∃ r, round ≤ r ∧ r < round + t ∧ instanceReady (env.getInstance info.id r) = true) →
      (waitLoop env infos t round ready).length = infos.length := by
  intro t
  induction t with
  | zero =>
    intro round ready hrn hrs hprog
    have hall : ∀ info ∈ infos, info.fullyQualifiedDomainName ∈ ready := by
      intro info hi
      by_contra hni
      obtain ⟨r, hr1, hr2, _⟩ := hprog info hi hni
      omega
    have hset : ready.toFinset = (infos.map InstanceInfo.fullyQualifiedDomainName).toFinset := by
      apply subset_antisymm
      · intro a ha
        rw [List.mem_toFinset] at ha ⊢
        exact hrs a ha
      · intro a ha
        rw [List.mem_toFinset] at ha ⊢
        obtain ⟨info, hi, heq⟩ := List.mem_map.1 ha
        exact heq ▸ hall info hi
    rw [waitLoop]
    calc ready.length = ready.toFinset.card := (List.toFinset_card_of_nodup hrn).symm
      _ = (infos.map InstanceInfo.fullyQualifiedDomainName).toFinset.card := by rw [hset]
      _ = (infos.map InstanceInfo.fullyQualifiedDomainName).length :=
        List.toFinset_card_of_nodup hnodup
      _ = infos.length := List.length_map _ _
  | succ t ih =>
    intro round ready hrn hrs hprog
    have h1' : (pollRound env round infos ready).Nodup := pollRound_nodup env round infos ready hrn
    have h2' : ∀ a ∈ pollRound env round infos ready,
        a ∈ infos.map InstanceInfo.fullyQualifiedDomainName := by
      intro a ha
      rcases pollRound_mem_source env round infos ready ha with h3 | ⟨info, h3, h4⟩
      · exact hrs a h3
      · rw [hcoh info h3 round] at h4
        exact h4 ▸ List.mem_map_of_mem _ h3
    rw [waitLoop]
    split
    · assumption
    · apply ih (round + 1) _ h1' h2'
      intro info hi hni2
      have hni : info.fullyQualifiedDomainName ∉ ready :=
        fun h => hni2 (mem_pollRound_of_mem env round infos ready h)
      obtain ⟨r, hr1, hr2, hready⟩ := hprog info hi hni
      rcases Nat.eq_or_lt_of_le hr1 with heq | hlt
      · exact absurd (pollRound_marks env round infos ready hi
          (heq ▸ hcoh info hi round) (heq ▸ hready)) hni2
      · exact ⟨r, hlt, by omega, hready⟩

theorem waitLoop_never_ready (env : Env) (infos : List InstanceInfo)
    (hcoh : ∀ info ∈ infos, ∀ r,
      (env.getInstance info.id r).fullyQualifiedDomainName = info.fullyQualifiedDomainName)
    (hnodup : (infos.map InstanceInfo.fullyQualifiedDomainName).Nodup)
    {iStar : InstanceInfo} (hiStar : iStar ∈ infos) :
    ∀ (t round : Nat) (ready : List String),
      (∀ r, round ≤ r → r < round + t → instanceReady (env.getInstance iStar.id r) = false) →
      iStar.fullyQualifiedDomainName ∉ ready →
      iStar.fullyQualifiedDomainName ∉ waitLoop env infos t round ready := by
  intro t
  induction t with
  | zero => intro round ready _ h; exact h
  | succ t ih =>
    intro round ready hnever hni
    have hni2 : iStar.fullyQualifiedDomainName ∉ pollRound env round infos ready := by
      apply pollRound_not_marked env round infos ready ?_ hni
      intro info hinfo hrdy heq
      have h1 : info.fullyQualifiedDomainName = iStar.fullyQualifiedDomainName := by
        rw [← hcoh info hinfo round]
        exact heq
      have h2 : info = iStar := List.inj_on_of_nodup_map hnodup hinfo hiStar h1
      rw [h2] at hrdy
      have := hnever round (Nat.le_refl round) (by omega)
      rw [this] at hrdy
      exact Bool.false_ne_true hrdy
    rw [waitLoop]
    split
    · exact hni2
    · exact ih (round + 1) _ (fun r ha hb => hnever r (by omega) (by omega)) hni2

/-! ## Claim theorems -/

/-- C1 (counterexample): with two submitted configurations, a one-second
budget and only the alpha instance provisioned, the wait loop marks the
alpha instance as ready, yet `ex_create_nodes` returns the empty list
rather than the ready subset. -/
theorem ex_create_nodes_timeout_discards_ready_subset :
    ex_create_nodes envTwo driver0 [cfgAlpha, cfgBeta] 1 = [] ∧
      waitLoop envTwo (submittedInfos envTwo [cfgAlpha, cfgBeta]) 1 0 [] =
        ["alpha.sl-cloud.com"] := by
  decide

/-- C1 (amended): provided the provider reports each polled instance
under the fully qualified domain name it was created with and the
submitted batch has pairwise distinct fully qualified domain names,
`ex_create_nodes` returns one translated node per submitted
configuration (the full batch) whenever every instance becomes ready
within the budget, returns the empty list whenever some instance is
still unready when the budget expires, and the full-batch result has no
duplicate nodes when instance ids are distinct and fetching preserves
them. -/
theorem ex_create_nodes_full_or_empty (env : Env) (driver : Driver)
    (configs : List CreateOptions) (timeout : Nat)
    (hcoh : ∀ info ∈ submittedInfos env configs, ∀ r,
      (env.getInstance info.id r).fullyQualifiedDomainName = info.fullyQualifiedDomainName)
    (hnodup : ((submittedInfos env configs).map InstanceInfo.fullyQualifiedDomainName).Nodup) :
    ((∀ info ∈ submittedInfos env configs,
        ∃ r, r < timeout ∧ instanceReady (env.getInstance info.id r) = true) →
      ex_create_nodes env driver configs timeout =
        (submittedInfos env configs).map
          (fun info => virtual_to_node driver (env.fetchInstance info.id))) ∧
    ((∃ info ∈ submittedInfos env configs,
        ∀ r, r < timeout → instanceReady (env.getInstance info.id r) = false) →
      ex_create_nodes env driver configs timeout = []) ∧
    ((((submittedInfos env configs).map InstanceInfo.id).Nodup ∧
        (∀ info ∈ submittedInfos env configs, (env.fetchInstance info.id).id = info.id) ∧
        (∀ info ∈ submittedInfos env configs,
          ∃ r, r < timeout ∧ instanceReady (env.getInstance info.id r) = true)) →
      (ex_create_nodes env driver configs timeout).Nodup) := by
  have hmain : (∀ info ∈ submittedInfos env configs,
      ∃ r, r < timeout ∧ instanceReady (env.getInstance info.id r) = true) →
      ex_create_nodes env driver configs timeout =
        (submittedInfos env configs).map
          (fun info => virtual_to_node driver (env.fetchInstance info.id)) := by
    intro hready
    have hlen : (waitLoop env (submittedInfos env configs) timeout 0 []).length =
        (submittedInfos env configs).length := by
      apply waitLoop_all_ready env (submittedInfos env configs) hcoh hnodup timeout 0 []
        List.nodup_nil (by simp)
      intro info hi _
      obtain ⟨r, hr, hrd⟩ := hready info hi
      exact ⟨r, by omega, by omega, hrd⟩
    rw [ex_create_nodes]
    simp only [hlen, ne_eq, not_true_eq_false, if_false]
  refine ⟨hmain, ?_, ?_⟩
  · rintro ⟨iStar, hiStar, hnever⟩
    have hnm : iStar.fullyQualifiedDomainName ∉
        waitLoop env (submittedInfos env configs) timeout 0 [] := by
      apply waitLoop_never_ready env (submittedInfos env configs) hcoh hnodup hiStar timeout 0 []
      · intro r h1 h2
        exact hnever r (by omega)
      · simp
    have hinv := waitLoop_invariant env (submittedInfos env configs) hcoh timeout 0 []
      List.nodup_nil (by simp)
    have hne : (waitLoop env (submittedInfos env configs) timeout 0 []).length ≠
        (submittedInfos env configs).length := by
      intro heq
      have hsub : (waitLoop env (submittedInfos env configs) timeout 0 []).toFinset ⊆
          ((submittedInfos env configs).map InstanceInfo.fullyQualifiedDomainName).toFinset := by
        intro a ha
        rw [List.mem_toFinset] at ha ⊢
        exact hinv.2 a ha
      have hcard : ((submittedInfos env configs).map
          InstanceInfo.fullyQualifiedDomainName).toFinset.card ≤
          (waitLoop env (submittedInfos env configs) timeout 0 []).toFinset.card := by
        rw [List.toFinset_card_of_nodup hinv.1, List.toFinset_card_of_nodup hnodup, heq,
          List.length_map]
      have hfeq := Finset.eq_of_subset_of_card_le hsub hcard
      have hmem : iStar.fullyQualifiedDomainName ∈
          waitLoop env (submittedInfos env configs) timeout 0 [] := by
        have hm : iStar.fullyQualifiedDomainName ∈
            ((submittedInfos env configs).map InstanceInfo.fullyQualifiedDomainName).toFinset := by
          rw [List.mem_toFinset]
          exact List.mem_map_of_mem _ hiStar
        rw [← hfeq, List.mem_toFinset] at hm
        exact hm
      exact hnm hmem
    rw [ex_create_nodes]
    simp only [ne_eq, hne, not_false_eq_true, if_true]
  · rintro ⟨hids, hfetch, hready⟩
    rw [hmain hready]
    have hinfos : (submittedInfos env configs).Nodup := List.Nodup.of_map _ hids
    apply List.Nodup.map_on ?_ hinfos
    intro x hx y hy hxy
    have hideq : x.id = y.id := by
      have h1 : (virtual_to_node driver (env.fetchInstance x.id)).id =
          (env.fetchInstance x.id).id := rfl
      have h2 : (virtual_to_node driver (env.fetchInstance y.id)).id =
          (env.fetchInstance y.id).id := rfl
      have h3 := congrArg Node.id hxy
      rw [h1, h2, hfetch x hx, hfetch y hy] at h3
      exact h3
    exact List.inj_on_of_nodup_map hids hx hy hideq

/-- C1 (witness): in the concrete environment, submitting the single
alpha configuration with a one-second budget yields exactly the
translated alpha node, via the full-batch case of the amended
theorem. -/
theorem ex_create_nodes_full_or_empty_witness :
    ex_create_nodes envTwo driver0 [cfgAlpha] 1 =
      [virtual_to_node driver0 vInstAlpha] := by
  have hinfos : submittedInfos envTwo [cfgAlpha] =
      [{ id := 1, fullyQualifiedDomainName := "alpha.sl-cloud.com" }] := rfl
  have h := (ex_create_nodes_full_or_empty envTwo driver0 [cfgAlpha] 1
    (by
      rw [hinfos]
      intro info hm r
      rw [List.mem_singleton] at hm
      subst hm
      rfl)
    (by rw [hinfos]; decide)).1
    (by
      rw [hinfos]
      intro info hm
      rw [List.mem_singleton] at hm
      subst hm
      exact ⟨0, by omega, by decide⟩)
  rw [h, hinfos]
  decide

/-- C2 (counterexample): the mixed VLAN is returned by the public-only
query although one of its subnet network identifiers starts with
`"10."`, so the public-only result is not free of `"10."` subnets. -/
theorem ex_get_vlans_public_contains_private_subnet :
    vlanMixed ∈ (ex_get_vlans [vlanMixed] false true).1 ∧
      "10.32.0.0" ∈ vlanMixed.subnets.map Subnet.networkIdentifier ∧
      pyStartswith "10.32.0.0" "10." = true := by
  decide

/-- C2 (amended): the private-only and public-only VLAN queries
partition the unfiltered query; every VLAN of the private-only result
has all of its subnet network identifiers starting with `"10."`, and
every VLAN of the public-only result has at least one subnet network
identifier that does not start with `"10."`. -/
theorem ex_get_vlans_partition (vlans : List Vlan) :
    (∀ vlan : Vlan,
      (vlan ∈ (ex_get_vlans vlans true false).1 ∨ vlan ∈ (ex_get_vlans vlans false true).1) ↔
        vlan ∈ (ex_get_vlans vlans true true).1) ∧
    ((ex_get_vlans vlans true false).1.all (fun vlan =>
      (vlan.subnets.map Subnet.networkIdentifier).all
        (fun identifier => pyStartswith identifier "10.")) = true) ∧
    ((ex_get_vlans vlans false true).1.all (fun vlan =>
      (vlan.subnets.map Subnet.networkIdentifier).any
        (fun identifier => !pyStartswith identifier "10.")) = true) := by
  have hpriv : (ex_get_vlans vlans true false).1 = vlans.filter vlanIsPrivate := rfl
  have hpub : (ex_get_vlans vlans false true).1 =
    vlans.filter (fun vlan => !vlanIsPrivate vlan) := rfl
  have hboth : (ex_get_vlans vlans true true).1 = vlans := rfl
  refine ⟨?_, ?_, ?_⟩
  · intro vlan
    rw [hpriv, hpub, hboth]
    simp only [List.mem_filter, Bool.not_eq_true']
    constructor
    · rintro (⟨h, _⟩ | ⟨h, _⟩) <;> exact h
    · intro h
      by_cases hp : vlanIsPrivate vlan = true
      · exact Or.inl ⟨h, hp⟩
      · exact Or.inr ⟨h, by simp [Bool.not_eq_true] at hp; exact hp⟩
  · rw [hpriv, List.all_eq_true]
    intro vlan hv
    exact (List.mem_filter.1 hv).2
  · rw [hpub, List.all_eq_true]
    intro vlan hv
    have h2 := (List.mem_filter.1 hv).2
    rw [Bool.not_eq_true'] at h2
    obtain ⟨identifier, hmem, hns⟩ := List.all_eq_false.1 h2
    have hid : pyStartswith identifier "10." = false := Bool.eq_false_iff.2 hns
    exact List.any_eq_true.2 ⟨identifier, hmem, by simp [hid]⟩

/-- C3: `SoftLayerCluster.destroy` invokes `destroy_node` on every
member node in iteration order (no member is skipped after an earlier
failure), `remainingNodes` collects exactly the names of the members
whose destroy call returned false, and the success report is issued
exactly when that collection is empty. -/
theorem cluster_destroy_reports (d : Node → Bool) (c : SoftLayerCluster) :
    (c.destroyRun d).1 = c.nodes.map Prod.snd ∧
    (c.destroyRun d).2 = (c.nodes.filter (fun p => !(d p.2))).map Prod.fst ∧
    c.destroySucceeded d = c.nodes.all (fun p => d p.2) := by
  have h := destroyRun_foldl d c.nodes ([], [])
  refine ⟨?_, ?_, ?_⟩
  · rw [SoftLayerCluster.destroyRun, h]
    simp
  · rw [SoftLayerCluster.destroyRun, h]
    simp
  · rw [SoftLayerCluster.destroySucceeded, SoftLayerCluster.destroyRun, h]
    simp only [List.nil_append]
    cases hall : c.nodes.all (fun p => d p.2)
    · obtain ⟨p, hp, hpd⟩ := List.all_eq_false.1 hall
      have hmem : p ∈ c.nodes.filter (fun p => !(d p.2)) :=
        List.mem_filter.2 ⟨hp, by simp [Bool.not_eq_true] at hpd; simp [hpd]⟩
      rcases hpf : c.nodes.filter (fun p => !(d p.2)) with _ | ⟨q, rest⟩
      · rw [hpf] at hmem; simp at hmem
      · simp [hpf]
    · have hnil : c.nodes.filter (fun p => !(d p.2)) = [] :=
        List.filter_eq_nil_iff.2 (fun p hp => by
          simp [List.all_eq_true.1 hall p hp])
      simp [hnil]

/-- C4 (counterexample): a record whose operating-system password entry
is the empty string is translated to a node whose password is the empty
string, so the password field is not always non-empty. -/
theorem virtual_node_password_can_be_empty :
    (virtual_to_node driver0 vInstEmptyPassword).extra.password = "" := by
  decide

/-- C4 (amended): for both translators the produced node's driver
back-reference is the translating driver, and its password is always
populated: the first password of the record's operating-system
passwords list when one is present (even if it is the empty string) and
the sentinel `"unknown"` otherwise, without ever failing. -/
theorem translated_node_driver_and_password (δ : Driver) (hw : HardwareInstance)
    (vi : VirtualInstance) :
    (hardware_to_node δ hw).driver = δ ∧
    (virtual_to_node δ vi).driver = δ ∧
    (hardware_to_node δ hw).extra.password = (specFirstPassword hw.operatingSystem).getD "unknown" ∧
    (virtual_to_node δ vi).extra.password = (specFirstPassword vi.operatingSystem).getD "unknown" :=
  ⟨rfl, rfl, extractPassword_eq_spec hw.operatingSystem, extractPassword_eq_spec vi.operatingSystem⟩

/-- C6: the disk capacity list of the size produced by
`_virtual_to_node` consists exactly of the capacities of the record's
block devices whose mount type is `"Disk"` and whose disk image
description does not end with `"-SWAP"`, in record order. -/
theorem virtual_node_disk_capacities (δ : Driver) (vi : VirtualInstance) :
    (virtual_to_node δ vi).size.diskCapacities =
      (vi.blockDevices.filter (fun blockDevice =>
        blockDevice.mountType == "Disk" &&
          !(pyEndswith blockDevice.diskImage.description "-SWAP"))).map
        (fun blockDevice => blockDevice.diskImage.capacity) :=
  rfl

/-- C7: for both translators the tags list of the produced node consists
exactly of the tag names of the record's tag references whose internal
flag equals 0, in record order. -/
theorem translated_node_tags (δ : Driver) (hw : HardwareInstance) (vi : VirtualInstance) :
    (hardware_to_node δ hw).extra.tags =
      (hw.tagReferences.filter (fun reference => reference.tag.internal == 0)).map
        (fun reference => reference.tag.name) ∧
    (virtual_to_node δ vi).extra.tags =
      (vi.tagReferences.filter (fun reference => reference.tag.internal == 0)).map
        (fun reference => reference.tag.name) :=
  ⟨rfl, rfl⟩

/-- C8: the settable derived fields of `SoftLayerNodeSize` have no-op
setters (assignment leaves the whole size unchanged), every derived
field is a function of the extra mapping alone (independent of the
driver reference), `disk` is the sum of `diskCapacities`, and `diskType`
is `"LOCAL"` exactly when `localDiskFlag` is true or absent with at most
two disk capacities. -/
theorem size_derived_fields (s : SoftLayerNodeSize) (v : Int) (w : String)
    (d1 d2 : Option Driver) (e : SizeExtra) :
    (s.setRam v = s ∧ s.setDisk v = s ∧ s.setBandwidth v = s ∧
      s.setName w = s ∧ s.setId w = s) ∧
    (SoftLayerNodeSize.cpu ⟨d1, e⟩ = SoftLayerNodeSize.cpu ⟨d2, e⟩ ∧
      SoftLayerNodeSize.ram ⟨d1, e⟩ = SoftLayerNodeSize.ram ⟨d2, e⟩ ∧
      SoftLayerNodeSize.disk ⟨d1, e⟩ = SoftLayerNodeSize.disk ⟨d2, e⟩ ∧
      SoftLayerNodeSize.diskCapacities ⟨d1, e⟩ = SoftLayerNodeSize.diskCapacities ⟨d2, e⟩ ∧
      SoftLayerNodeSize.diskType ⟨d1, e⟩ = SoftLayerNodeSize.diskType ⟨d2, e⟩ ∧
      SoftLayerNodeSize.bandwidth ⟨d1, e⟩ = SoftLayerNodeSize.bandwidth ⟨d2, e⟩ ∧
      SoftLayerNodeSize.id ⟨d1, e⟩ = SoftLayerNodeSize.id ⟨d2, e⟩ ∧
      SoftLayerNodeSize.name ⟨d1, e⟩ = SoftLayerNodeSize.name ⟨d2, e⟩) ∧
    s.disk = s.diskCapacities.sum ∧
    (s.diskType = "LOCAL" ↔
      (s.extra.localDiskFlag = some true ∨
        (s.extra.localDiskFlag = none ∧ s.diskCapacities.length ≤ 2))) := by
  refine ⟨⟨rfl, rfl, rfl, rfl, rfl⟩, ⟨rfl, rfl, rfl, rfl, rfl, rfl, rfl, rfl⟩, rfl, ?_⟩
  simp only [SoftLayerNodeSize.diskType]
  rcases hf : s.extra.localDiskFlag with _ | b
  · by_cases hl : s.diskCapacities.length ≤ 2
    · simp [hf, hl]
    · simp [hf, hl, show ("SAN" : String) ≠ "LOCAL" from by decide]
  · cases b
    · simp [hf, show ("SAN" : String) ≠ "LOCAL" from by decide]
    · simp [hf]

/-- C9: with both `includePrivate` and `includePublic` false,
`ex_get_vlans` returns the empty list and issues no `list_vlans`
provider query, whatever the provider state is. -/
theorem ex_get_vlans_both_false (providerVlans : List Vlan) :
    ex_get_vlans providerVlans false false = ([], 0) :=
  rfl

/-- C5: `create_node` raises a `ValueError` exactly when one of the
required arguments image, location, name, size is missing, and
`ex_create_cluster` exactly when one of cluster, image, location, names,
size is missing; the error outcome is independent of the provider
environment, the driver and the timeout — the failure is decided by the
keyword arguments alone, before any provider creation request. -/
theorem create_argument_validation (env env2 : Env) (δ δ2 : Driver) (t t2 : Nat)
    (kn : CreateNodeKwargs) (kc : CreateClusterKwargs) :
    ((errorOf (create_node env δ t kn)).isSome =
      (kn.image.isNone || kn.location.isNone || kn.name.isNone || kn.size.isNone)) ∧
    errorOf (create_node env δ t kn) = errorOf (create_node env2 δ2 t2 kn) ∧
    ((errorOf (ex_create_cluster env δ t kc)).isSome =
      (kc.cluster.isNone || kc.image.isNone || kc.location.isNone ||
        kc.names.isNone || kc.size.isNone)) ∧
    errorOf (ex_create_cluster env δ t kc) = errorOf (ex_create_cluster env2 δ2 t2 kc) := by
  obtain ⟨i, l, n, s⟩ := kn
  obtain ⟨cc, ci, cl, cn, cs⟩ := kc
  refine ⟨?_, ?_, ?_, ?_⟩
  · rcases i <;> rcases l <;> rcases n <;> rcases s <;> rfl
  · rcases i <;> rcases l <;> rcases n <;> rcases s <;> rfl
  · rcases cc <;> rcases ci <;> rcases cl <;> rcases cn <;> rcases cs <;> rfl
  · rcases cc <;> rcases ci <;> rcases cl <;> rcases cn <;> rcases cs <;> rfl

/-- C10: `list_nodes`, `ex_get_hardware_nodes` and
`ex_get_virtual_nodes` always return lists sorted in non-decreasing
order of node name, whatever order the provider returns the records
in. -/
theorem listings_sorted_by_name (env : Env) (δ : Driver) (tagsFilter : Option (List String)) :
    List.Pairwise (fun a b => nodeNameLe a b = true) (list_nodes env δ) ∧
    List.Pairwise (fun a b => nodeNameLe a b = true) (ex_get_hardware_nodes env δ tagsFilter) ∧
    List.Pairwise (fun a b => nodeNameLe a b = true) (ex_get_virtual_nodes env δ tagsFilter) := by
  refine ⟨?_, ?_, ?_⟩ <;>
    exact List.sorted_mergeSort
      (fun a b c => nodeNameLe_trans a b c)
      (fun a b => nodeNameLe_total a b) _

end StormSoftlayer
